import Mathlib

/-!
Shallow embedding of the report-generator application (src/app.py) and
proofs of the specification's testable properties.

The application keeps an in-memory list of observation records
(`st.session_state.observations`), inserts a new record at index 0 after a
successful recommendation-generation call, removes records by id with a
list comprehension, and exports the list as a PDF via `to_pdf`.

Modelling conventions:
- A PIL image is modelled by `PyImage`: re-encoding it to PNG bytes and
  embedding it in the PDF either yields a byte payload (`pngBytes = some _`)
  or raises (`pngBytes = none`, with `errMsg` the exception text).
- The two Gemini wrappers take the backend model as an explicit function
  returning `Except String String`; their try/except is the match on that
  result, returning `none` (Python `None`) on any error.
- `to_pdf` is split into the sequence of drawing operations issued to the
  FPDF object (`PdfItem` list, a total function) and the final
  `.encode('latin-1')`, which fails exactly when some emitted text holds a
  character above code point 255.
-/

namespace ReportApp

/-- Whitespace characters recognised by Python's `str.strip()` with no
argument (ASCII range: space, tab, newline, carriage return, vertical tab,
form feed). -/
def pyIsSpace (c : Char) : Bool :=
  c = ' ' || c = '\t' || c = '\n' || c = '\r' || c = '\x0b' || c = '\x0c'

/-- Python `str.strip()`: drop leading and trailing whitespace. -/
def pyStrip (s : String) : String :=
  String.mk (((s.toList.dropWhile pyIsSpace).reverse.dropWhile pyIsSpace).reverse)

/-- A PIL image as `to_pdf` sees it (lines 109-121 of app.py): saving it to
PNG and embedding it either produces the byte payload or raises; `pngBytes =
none` models the raising case and `errMsg` the exception text interpolated
into the diagnostic cell. -/
structure PyImage where
  pngBytes : Option (List Nat)
  errMsg : String
  deriving DecidableEq

/-- The observation record built at lines 172-178 of app.py. -/
structure Observation where
  id : String
  image : Option PyImage
  observation_text : String
  priority : String
  recommendation : String
  deriving DecidableEq

/-- Prompt template of `generate_recommendation_with_image` (lines 47-52). -/
def visionPrompt (text : String) : String :=
  "\n    You are an expert safety auditor reviewing an observation.\n    Based on the following image and text, provide a concise, actionable recommendation to rectify the issue.\n    The tone should be professional and clear.\n    Observation: \"" ++ text ++ "\"\n    "

/-- Prompt template of `generate_recommendation_text_only` (lines 63-68). -/
def textPrompt (text : String) : String :=
  "\n    You are an expert safety auditor reviewing an observation.\n    Based on the following text, provide a concise, actionable recommendation to rectify the issue.\n    The tone should be professional and clear.\n    Observation: \"" ++ text ++ "\"\n    "

/-- `generate_recommendation_with_image` (lines 44-58): calls the vision
backend inside try/except, returning the raw response text on success and
`None` on any error. -/
def generate_recommendation_with_image
    (vision_model : String → PyImage → Except String String)
    (image : PyImage) (text : String) : Option String :=
  match vision_model (visionPrompt text) image with
  | Except.ok r => some r
  | Except.error _ => none

/-- `generate_recommendation_text_only` (lines 60-74): same wrapper for the
text-only backend. -/
def generate_recommendation_text_only
    (text_model : String → Except String String)
    (text : String) : Option String :=
  match text_model (textPrompt text) with
  | Except.ok r => some r
  | Except.error _ => none

/-- Outcome of one run of the form-submission handler (lines 158-180): the
observations list afterwards, whether a Recommendation Client call was made,
and whether an observation was inserted. -/
structure SubmitResult where
  observations : List Observation
  clientCalled : Bool
  inserted : Bool
  deriving DecidableEq

/-- Lines 163-169: vision client when an image was uploaded, text client
otherwise. -/
def clientCall (vision_model : String → PyImage → Except String String)
    (text_model : String → Except String String)
    (uploaded_image : Option PyImage) (observation_text : String) : Option String :=
  match uploaded_image with
  | some img => generate_recommendation_with_image vision_model img observation_text
  | none => generate_recommendation_text_only text_model observation_text

/-- The form-submission handler (lines 158-180): blank text is rejected
before any client call; a truthy (non-`None`, non-empty) recommendation
leads to insertion of the new observation at index 0. -/
def handleSubmit (vision_model : String → PyImage → Except String String)
    (text_model : String → Except String String)
    (observations : List Observation) (observation_text : String)
    (priority : String) (uploaded_image : Option PyImage)
    (newId : String) : SubmitResult :=
  if pyStrip observation_text = "" then
    ⟨observations, false, false⟩
  else
    match clientCall vision_model text_model uploaded_image observation_text with
    | some r =>
      if r = "" then ⟨observations, true, false⟩
      else ⟨⟨newId, uploaded_image, observation_text, priority, r⟩ :: observations, true, true⟩
    | none => ⟨observations, true, false⟩

/-- The remove-button handler (line 232): keep every observation whose id
differs from the clicked one. -/
def removeObs (observations : List Observation) (i : String) : List Observation :=
  observations.filter (fun o => o.id != i)

/-- One drawing operation issued to the FPDF object inside `to_pdf`. -/
inductive PdfItem where
  | setFont (family style : String) (size : Nat)
  | cell (w h : Nat) (txt : String)
  | multiCell (h : Nat) (txt : String)
  | lnBreak (h : Nat)
  | imageEmbed (bytes : List Nat) (w : Nat)
  deriving DecidableEq

/-- The separator row written after each block: `"-" * 80` (line 123). -/
def separatorLine : String := String.mk (List.replicate 80 '-')

/-- Lines 78-82 of `to_pdf`: title header of the document. -/
def pdfHeaderItems : List PdfItem :=
  [PdfItem.setFont "Arial" "B" 16,
   PdfItem.cell 200 10 "Audit Report",
   PdfItem.lnBreak 10]

/-- Lines 85-106 of `to_pdf`: the textual part of one observation block;
`total` is `len(observations_list)` and `i` the enumerate index. -/
def textItems (total i : Nat) (obs : Observation) : List PdfItem :=
  [PdfItem.setFont "Arial" "B" 12,
   PdfItem.cell 200 10 ("Observation #" ++ toString (total - i)),
   PdfItem.setFont "Arial" "B" 10,
   PdfItem.cell 30 10 "Priority:",
   PdfItem.setFont "Arial" "" 10,
   PdfItem.cell 160 10 obs.priority,
   PdfItem.setFont "Arial" "B" 10,
   PdfItem.multiCell 10 "Observation:",
   PdfItem.setFont "Arial" "" 10,
   PdfItem.multiCell 5 obs.observation_text,
   PdfItem.lnBreak 5,
   PdfItem.setFont "Arial" "B" 10,
   PdfItem.multiCell 10 "Recommendation:",
   PdfItem.setFont "Arial" "" 10,
   PdfItem.multiCell 5 obs.recommendation,
   PdfItem.lnBreak 5]

/-- Lines 108-121 of `to_pdf`: the image branch. A present image whose PNG
re-encode or embed raises (`pngBytes = none`) is caught by the except clause
and replaced by the inline diagnostic cell. -/
def imageItems (oi : Option PyImage) : List PdfItem :=
  match oi with
  | none => []
  | some img =>
    match img.pngBytes with
    | some bytes => [PdfItem.imageEmbed bytes 100, PdfItem.lnBreak 5]
    | none =>
      [PdfItem.setFont "Arial" "I" 8,
       PdfItem.cell 0 10 ("(Could not embed image: " ++ img.errMsg ++ ")")]

/-- One full observation block of the loop body (lines 85-124). -/
def obsBlock (total i : Nat) (obs : Observation) : List PdfItem :=
  textItems total i obs ++ imageItems obs.image ++
    [PdfItem.cell 0 5 separatorLine, PdfItem.lnBreak 5]

/-- The enumerate loop of `to_pdf` (line 84), block by block. -/
def pdfBlocksAux (total : Nat) : Nat → List Observation → List (List PdfItem)
  | _, [] => []
  | i, obs :: rest => obsBlock total i obs :: pdfBlocksAux total (i + 1) rest

/-- The list of per-observation blocks of the document. -/
def pdfBlocks (observations_list : List Observation) : List (List PdfItem) :=
  pdfBlocksAux observations_list.length 0 observations_list

/-- All drawing operations issued by `to_pdf` for a given snapshot. -/
def to_pdf_items (observations_list : List Observation) : List PdfItem :=
  pdfHeaderItems ++ (pdfBlocks observations_list).flatten

/-- The text carried by a drawing operation, as it reaches the PDF buffer
that line 126 encodes with the latin-1 codec. -/
def itemText : PdfItem → String
  | PdfItem.setFont family style _ => family ++ style
  | PdfItem.cell _ _ txt => txt
  | PdfItem.multiCell _ txt => txt
  | PdfItem.lnBreak _ => ""
  | PdfItem.imageEmbed _ _ => ""

/-- A string survives `.encode('latin-1')` exactly when every character has
code point below 256. -/
def latin1Ok (s : String) : Bool :=
  s.toList.all (fun c => c.toNat < 256)

/-- Byte rendering of one drawing operation in the output document. -/
def itemBytes (it : PdfItem) : List Nat :=
  match it with
  | PdfItem.imageEmbed bytes _ => bytes
  | _ => (itemText it).toList.map Char.toNat

/-- `to_pdf` (lines 76-126): render all drawing operations, then encode the
buffer with latin-1; a character above code point 255 anywhere in the
emitted text makes the encode raise, modelled by `none`. -/
def to_pdf (observations_list : List Observation) : Option (List Nat) :=
  if (to_pdf_items observations_list).all (fun it => latin1Ok (itemText it)) then
    some (((to_pdf_items observations_list).map itemBytes).flatten)
  else none

/-- Latin-1 encodability of the error message of an optional image. -/
def imgLatin1 : Option PyImage → Bool
  | none => true
  | some img => latin1Ok img.errMsg

/-- All text an observation can contribute to the PDF buffer is latin-1
encodable. -/
def obsLatin1 (o : Observation) : Bool :=
  latin1Ok o.observation_text && latin1Ok o.priority &&
    latin1Ok o.recommendation && imgLatin1 o.image

/-- Session state relevant to the export path; `to_pdf` is called at line
193 on `st.session_state.observations`. -/
structure AppState where
  observations : List Observation
  deriving DecidableEq

/-- Lines 193-200: the download button reads the current snapshot, renders
it with `to_pdf`, and writes nothing back to session state. -/
def downloadReportStep (s : AppState) : AppState × Option (List Nat) :=
  (s, to_pdf s.observations)

/-- Modelled from the spec: the tabular (CSV) export encoder of section 4.3
is absent from src/app.py (only the unused pandas import and the
`audit_report.csv` contract point refer to it). Faithful to the spec's
words: a header row `Sr. No., Observation, Recommendation` with `Priority`
inserted (this variant carries priorities). -/
def csvHeaderRow : List String :=
  ["Sr. No.", "Priority", "Observation", "Recommendation"]

/-- Modelled from the spec: one tabular row; serial numbers are assigned as
`total_count - index` and image payloads are excluded entirely. -/
def csvRow (serial : Nat) (obs : Observation) : List String :=
  [toString serial, obs.priority, obs.observation_text, obs.recommendation]

/-- Modelled from the spec: one row per observation in display order. -/
def csvBodyAux (total : Nat) : Nat → List Observation → List (List String)
  | _, [] => []
  | i, obs :: rest => csvRow (total - i) obs :: csvBodyAux total (i + 1) rest

/-- Modelled from the spec: the lines of the tabular export; an empty Report
yields empty output, not even a header. -/
def to_csv_lines (observations_list : List Observation) : List (List String) :=
  if observations_list.isEmpty then []
  else csvHeaderRow :: csvBodyAux observations_list.length 0 observations_list

/-- Modelled from the spec: the tabular payload as delimited text. -/
def to_csv (observations_list : List Observation) : String :=
  String.intercalate "\n" ((to_csv_lines observations_list).map (String.intercalate ","))

/-- An observation with its image payload dropped; used to state that the
tabular encoding ignores images. -/
def eraseImage (o : Observation) : Observation :=
  ⟨o.id, none, o.observation_text, o.priority, o.recommendation⟩

/-- Sample observation without image. -/
def obsA : Observation := ⟨"id-a", none, "leak near pump", "Medium", "Fix the leak"⟩

/-- Sample image whose PNG re-encode succeeds. -/
def goodImg : PyImage := ⟨some [137, 80, 78, 71], ""⟩

/-- Sample image whose PNG re-encode raises. -/
def badImg : PyImage := ⟨none, "cannot identify image file"⟩

/-- Sample observation with a healthy image. -/
def obsB : Observation := ⟨"id-b", some goodImg, "loose railing", "High", "Tighten the railing"⟩

/-- Sample observation with a corrupt image. -/
def obsC : Observation := ⟨"id-c", some badImg, "broken ladder", "Low", "Replace the ladder"⟩

/-- Sample observation whose text holds a character above the latin-1
range. -/
def obsU : Observation := ⟨"id-u", none, "Ω leak", "Medium", "Fix"⟩

/-- Sample vision backend that always fails. -/
def vmFail : String → PyImage → Except String String := fun _ _ => Except.error "boom"

/-- Sample text backend that always fails. -/
def tmFail : String → Except String String := fun _ => Except.error "boom"

/-- Sample vision backend that always answers with a fixed text. -/
def vmOk : String → PyImage → Except String String := fun _ _ => Except.ok "Fix it"

/-- Sample text backend that always answers with a fixed text. -/
def tmOk : String → Except String String := fun _ => Except.ok "Fix it"

/-- Sample vision backend that succeeds with the empty string. -/
def vmEmpty : String → PyImage → Except String String := fun _ _ => Except.ok ""

/-- Sample text backend that succeeds with the empty string. -/
def tmEmpty : String → Except String String := fun _ => Except.ok ""

/-! Helper lemmas. -/

/-- Every character printed by `Nat.digitChar` on a decimal digit is in the
ASCII range. -/
theorem digitChar_toNat_lt (n : Nat) (h : n < 10) : (Nat.digitChar n).toNat < 256 := by
  interval_cases n <;> decide

/-- `Nat.toDigitsCore` only prepends digit characters, so latin-1
encodability of the accumulator is preserved. -/
theorem toDigitsCore_latin1 (f : Nat) :
    ∀ (n : Nat) (ds : List Char), (∀ c ∈ ds, c.toNat < 256) →
      ∀ c ∈ Nat.toDigitsCore 10 f n ds, c.toNat < 256 := by
  induction f with
  | zero =>
    intro n ds h c hc
    exact h c hc
  | succ f ih =>
    intro n ds h c hc
    simp only [Nat.toDigitsCore] at hc
    split at hc
    · rcases List.mem_cons.mp hc with rfl | hmem
      · exact digitChar_toNat_lt _ (Nat.mod_lt _ (by decide))
      · exact h c hmem
    · refine ih (n / 10) (Nat.digitChar (n % 10) :: ds) ?_ c hc
      intro d hd
      rcases List.mem_cons.mp hd with rfl | hmem
      · exact digitChar_toNat_lt _ (Nat.mod_lt _ (by decide))
      · exact h d hmem

/-- The decimal representation of a natural number is latin-1 encodable. -/
theorem latin1Ok_toString (n : Nat) : latin1Ok (toString n) = true := by
  show latin1Ok (Nat.repr n) = true
  unfold Nat.repr Nat.toDigits latin1Ok
  rw [List.all_eq_true]
  intro c hc
  simp only [decide_eq_true_eq]
  exact toDigitsCore_latin1 (n + 1) n [] (by intro d hd; cases hd) c hc

/-- Latin-1 encodability distributes over string append. -/
theorem latin1Ok_append (a b : String) :
    latin1Ok (a ++ b) = (latin1Ok a && latin1Ok b) := by
  simp [latin1Ok, String.toList, String.data_append, List.all_append]

/-- Every drawing operation of one observation block carries latin-1
encodable text when the observation's fields do. -/
theorem obsBlock_latin1 (total i : Nat) (o : Observation) (h : obsLatin1 o = true) :
    ∀ it ∈ obsBlock total i o, latin1Ok (itemText it) = true := by
  have h4 : imgLatin1 o.image = true := by
    simp only [obsLatin1, Bool.and_eq_true] at h
    exact h.2
  have h1 : latin1Ok o.observation_text = true := by
    simp only [obsLatin1, Bool.and_eq_true] at h
    exact h.1.1.1
  have h2 : latin1Ok o.priority = true := by
    simp only [obsLatin1, Bool.and_eq_true] at h
    exact h.1.1.2
  have h3 : latin1Ok o.recommendation = true := by
    simp only [obsLatin1, Bool.and_eq_true] at h
    exact h.1.2
  intro it hit
  simp only [obsBlock, List.mem_append] at hit
  rcases hit with (hit | hit) | hit
  · simp only [textItems, List.mem_cons, List.not_mem_nil, or_false] at hit
    rcases hit with rfl|rfl|rfl|rfl|rfl|rfl|rfl|rfl|rfl|rfl|rfl|rfl|rfl|rfl|rfl|rfl
    · decide
    · show latin1Ok ("Observation #" ++ toString (total - i)) = true
      rw [latin1Ok_append, latin1Ok_toString, Bool.and_true]
      decide
    · decide
    · decide
    · decide
    · exact h2
    · decide
    · decide
    · decide
    · exact h1
    · decide
    · decide
    · decide
    · decide
    · exact h3
    · decide
  · rcases himg : o.image with _ | img
    · rw [himg] at hit
      simp [imageItems] at hit
    · rw [himg] at hit
      rw [himg] at h4
      rcases hpng : img.pngBytes with _ | bytes
      · simp only [imageItems, hpng, List.mem_cons, List.not_mem_nil, or_false] at hit
        rcases hit with rfl | rfl
        · decide
        · show latin1Ok ("(Could not embed image: " ++ img.errMsg ++ ")") = true
          rw [latin1Ok_append, latin1Ok_append]
          simp only [imgLatin1] at h4
          rw [h4]
          decide
      · simp only [imageItems, hpng, List.mem_cons, List.not_mem_nil, or_false] at hit
        rcases hit with rfl | rfl
        · rfl
        · rfl
  · simp only [List.mem_cons, List.not_mem_nil, or_false] at hit
    rcases hit with rfl | rfl
    · decide
    · decide

/-- All blocks of the loop carry latin-1 encodable text when every
observation's fields do. -/
theorem pdfBlocksAux_latin1 (total : Nat) (l : List Observation) :
    ∀ (k : Nat), (∀ o ∈ l, obsLatin1 o = true) →
      ∀ it ∈ (pdfBlocksAux total k l).flatten, latin1Ok (itemText it) = true := by
  induction l with
  | nil =>
    intro k _ it hit
    simp [pdfBlocksAux] at hit
  | cons o rest ih =>
    intro k h it hit
    simp only [pdfBlocksAux, List.flatten_cons, List.mem_append] at hit
    rcases hit with hit | hit
    · exact obsBlock_latin1 total k o (h o (by simp)) it hit
    · exact ih (k + 1) (fun o2 ho2 => h o2 (by simp [ho2])) it hit

/-- When every observation's text fields are latin-1 encodable, the final
encode succeeds and yields the rendering of all drawing operations. -/
theorem to_pdf_eq_some (l : List Observation) (h : l.all obsLatin1 = true) :
    to_pdf l = some (((to_pdf_items l).map itemBytes).flatten) := by
  unfold to_pdf
  rw [if_pos]
  rw [List.all_eq_true]
  intro it hit
  simp only [to_pdf_items, List.mem_append] at hit
  rcases hit with hit | hit
  · simp only [pdfHeaderItems, List.mem_cons, List.not_mem_nil, or_false] at hit
    rcases hit with rfl | rfl | rfl
    · decide
    · decide
    · decide
  · refine pdfBlocksAux_latin1 l.length l 0 ?_ it hit
    rw [List.all_eq_true] at h
    exact h

/-- Length of the block list produced by the loop. -/
theorem pdfBlocksAux_length (total : Nat) (l : List Observation) :
    ∀ k : Nat, (pdfBlocksAux total k l).length = l.length := by
  induction l with
  | nil => intro k; rfl
  | cons o rest ih =>
    intro k
    simp only [pdfBlocksAux, List.length_cons, ih (k + 1)]

/-- The i-th block produced by the loop is the block of the i-th
observation, with running index `k + i`. -/
theorem pdfBlocksAux_getElem (total : Nat) (l : List Observation) :
    ∀ (k i : Nat),
      (pdfBlocksAux total k l)[i]? = (l[i]?).map (fun o => obsBlock total (k + i) o) := by
  induction l with
  | nil =>
    intro k i
    simp [pdfBlocksAux]
  | cons o rest ih =>
    intro k i
    cases i with
    | zero => simp [pdfBlocksAux]
    | succ j =>
      simp only [pdfBlocksAux, List.getElem?_cons_succ, ih (k + 1) j]
      have : k + 1 + j = k + (j + 1) := by omega
      rw [this]

/-- Length of the body of the tabular export. -/
theorem csvBodyAux_length (total : Nat) (l : List Observation) :
    ∀ k : Nat, (csvBodyAux total k l).length = l.length := by
  induction l with
  | nil => intro k; rfl
  | cons o rest ih =>
    intro k
    simp only [csvBodyAux, List.length_cons, ih (k + 1)]

/-- The i-th row of the tabular body is the row of the i-th observation,
with serial `total - (k + i)`. -/
theorem csvBodyAux_getElem (total : Nat) (l : List Observation) :
    ∀ (k i : Nat),
      (csvBodyAux total k l)[i]? = (l[i]?).map (fun o => csvRow (total - (k + i)) o) := by
  induction l with
  | nil =>
    intro k i
    simp [csvBodyAux]
  | cons o rest ih =>
    intro k i
    cases i with
    | zero => simp [csvBodyAux]
    | succ j =>
      simp only [csvBodyAux, List.getElem?_cons_succ, ih (k + 1) j]
      have : k + 1 + j = k + (j + 1) := by omega
      rw [this]

/-- The tabular rows never look at image payloads. -/
theorem csvBodyAux_eraseImage (total : Nat) (l : List Observation) :
    ∀ k : Nat, csvBodyAux total k (l.map eraseImage) = csvBodyAux total k l := by
  induction l with
  | nil => intro k; rfl
  | cons o rest ih =>
    intro k
    show csvRow (total - k) (eraseImage o) :: csvBodyAux total (k + 1) (rest.map eraseImage) = _
    rw [ih (k + 1)]
    rfl

/-- Dropping all image payloads does not change the tabular export lines. -/
theorem to_csv_lines_eraseImage (l : List Observation) :
    to_csv_lines (l.map eraseImage) = to_csv_lines l := by
  cases l with
  | nil => rfl
  | cons o rest =>
    unfold to_csv_lines
    rw [List.length_map]
    rw [csvBodyAux_eraseImage ((o :: rest) : List Observation).length (o :: rest) 0]
    rw [List.map_cons]
    simp

/-- Exhaustive case analysis of the form-submission handler: blank text,
failing client call, empty-string recommendation, or insertion at the
front. -/
theorem handleSubmit_cases (vm : String → PyImage → Except String String)
    (tm : String → Except String String)
    (l : List Observation) (text prio : String) (img : Option PyImage)
    (newId : String) :
    (pyStrip text = "" ∧ handleSubmit vm tm l text prio img newId = ⟨l, false, false⟩) ∨
    (pyStrip text ≠ "" ∧ clientCall vm tm img text = none ∧
      handleSubmit vm tm l text prio img newId = ⟨l, true, false⟩) ∨
    (pyStrip text ≠ "" ∧ clientCall vm tm img text = some "" ∧
      handleSubmit vm tm l text prio img newId = ⟨l, true, false⟩) ∨
    (∃ r, pyStrip text ≠ "" ∧ clientCall vm tm img text = some r ∧ r ≠ "" ∧
      handleSubmit vm tm l text prio img newId =
        ⟨(⟨newId, img, text, prio, r⟩ : Observation) :: l, true, true⟩) := by
  unfold handleSubmit
  split
  next hb =>
    exact Or.inl ⟨hb, rfl⟩
  next hb =>
    split
    next r heq =>
      split
      next hr =>
        subst hr
        exact Or.inr (Or.inr (Or.inl ⟨hb, heq, rfl⟩))
      next hr =>
        exact Or.inr (Or.inr (Or.inr ⟨r, hb, heq, hr, rfl⟩))
    next heq =>
      exact Or.inr (Or.inl ⟨hb, heq, rfl⟩)

/-! Claim theorems. -/

/-- C7: the remove operation keeps exactly the observations whose id
differs from the requested one, preserving their relative order; on an
absent id the Store is unchanged (no-op), and the operation is
idempotent. -/
theorem remove_filters_by_id_noop_idempotent (l : List Observation) (i : String) :
    List.Sublist (removeObs l i) l ∧
    (∀ o, o ∈ removeObs l i ↔ o ∈ l ∧ o.id ≠ i) ∧
    ((∀ o ∈ l, o.id ≠ i) → removeObs l i = l) ∧
    removeObs (removeObs l i) i = removeObs l i := by
  refine ⟨List.filter_sublist l, ?_, ?_, ?_⟩
  · intro o
    simp [removeObs, List.mem_filter]
  · intro h
    unfold removeObs
    rw [List.filter_eq_self]
    intro a ha
    simpa using h a ha
  · unfold removeObs
    rw [List.filter_eq_self]
    intro a ha
    exact (List.mem_filter.mp ha).2

/-- C7 witness: removing an absent id from a concrete two-element store
leaves it unchanged. -/
theorem remove_filters_witness :
    (∀ o ∈ [obsB, obsA], o.id ≠ "id-z") ∧ removeObs [obsB, obsA] "id-z" = [obsB, obsA] :=
  ⟨by decide,
   (remove_filters_by_id_noop_idempotent [obsB, obsA] "id-z").2.2.1 (by decide)⟩

/-- C6: submitting empty or whitespace-only text strips to the empty
string, makes no Recommendation Client call, leaves the Store unchanged,
and the outcome is independent of the backends (they are never invoked). -/
theorem blank_submission_no_call_no_mutation
    (vm : String → PyImage → Except String String)
    (tm : String → Except String String)
    (l : List Observation) (text prio newId : String) (img : Option PyImage)
    (htext : text.toList.all pyIsSpace = true) :
    pyStrip text = "" ∧
    handleSubmit vm tm l text prio img newId = ⟨l, false, false⟩ ∧
    ∀ (vm2 : String → PyImage → Except String String)
      (tm2 : String → Except String String),
      handleSubmit vm tm l text prio img newId =
        handleSubmit vm2 tm2 l text prio img newId := by
  have hstrip : pyStrip text = "" := by
    unfold pyStrip
    have hdw : text.toList.dropWhile pyIsSpace = [] := by
      rw [List.dropWhile_eq_nil_iff]
      intro x hx
      rw [List.all_eq_true] at htext
      exact htext x hx
    rw [hdw]
    rfl
  refine ⟨hstrip, ?_, ?_⟩
  · simp [handleSubmit, hstrip]
  · intro vm2 tm2
    simp [handleSubmit, hstrip]

/-- C6 witness: a whitespace-only submission against a concrete store. -/
theorem blank_submission_witness :
    (" \t ".toList.all pyIsSpace = true) ∧
    (pyStrip " \t " = "" ∧
     handleSubmit vmOk tmOk [obsA] " \t " "Medium" none "id-1" = ⟨[obsA], false, false⟩ ∧
     ∀ (vm2 : String → PyImage → Except String String)
       (tm2 : String → Except String String),
       handleSubmit vmOk tmOk [obsA] " \t " "Medium" none "id-1" =
         handleSubmit vm2 tm2 [obsA] " \t " "Medium" none "id-1") :=
  ⟨by decide,
   blank_submission_no_call_no_mutation vmOk tmOk [obsA] " \t " "Medium" "id-1" none (by decide)⟩

/-- C3: when the Recommendation Client call fails, the Store is left
completely unchanged and nothing is inserted; both generation wrappers turn
any backend error into None. -/
theorem backend_failure_leaves_store_unchanged
    (vm : String → PyImage → Except String String)
    (tm : String → Except String String)
    (l : List Observation) (text prio newId : String) (img : Option PyImage)
    (hfail : clientCall vm tm img text = none) :
    (handleSubmit vm tm l text prio img newId).observations = l ∧
    (handleSubmit vm tm l text prio img newId).inserted = false ∧
    (∀ (im : PyImage) (e : String), vm (visionPrompt text) im = Except.error e →
      generate_recommendation_with_image vm im text = none) ∧
    (∀ e : String, tm (textPrompt text) = Except.error e →
      generate_recommendation_text_only tm text = none) := by
  have hmain : (handleSubmit vm tm l text prio img newId).observations = l ∧
      (handleSubmit vm tm l text prio img newId).inserted = false := by
    rcases handleSubmit_cases vm tm l text prio img newId with
      ⟨_, he⟩ | ⟨_, _, he⟩ | ⟨_, _, he⟩ | ⟨r, _, hc2, _, _⟩
    · rw [he]
      exact ⟨rfl, rfl⟩
    · rw [he]
      exact ⟨rfl, rfl⟩
    · rw [he]
      exact ⟨rfl, rfl⟩
    · rw [hfail] at hc2
      cases hc2
  refine ⟨hmain.1, hmain.2, ?_, ?_⟩
  · intro im e he
    unfold generate_recommendation_with_image
    rw [he]
  · intro e he
    unfold generate_recommendation_text_only
    rw [he]

/-- C3 witness: a failing backend against a concrete store. -/
theorem backend_failure_witness :
    clientCall vmFail tmFail none "leak" = none ∧
    ((handleSubmit vmFail tmFail [obsA] "leak" "Medium" none "id-1").observations = [obsA] ∧
     (handleSubmit vmFail tmFail [obsA] "leak" "Medium" none "id-1").inserted = false ∧
     (∀ (im : PyImage) (e : String), vmFail (visionPrompt "leak") im = Except.error e →
       generate_recommendation_with_image vmFail im "leak" = none) ∧
     (∀ e : String, tmFail (textPrompt "leak") = Except.error e →
       generate_recommendation_text_only tmFail "leak" = none)) :=
  ⟨rfl,
   backend_failure_leaves_store_unchanged vmFail tmFail [obsA] "leak" "Medium" "id-1" none rfl⟩

/-- C9: a Recommendation Client call that succeeds with the empty string
inserts nothing (the handler tests the recommendation for truthiness), and
consequently submissions preserve the invariant that every stored
observation carries a non-empty recommendation. -/
theorem empty_recommendation_never_inserted
    (vm : String → PyImage → Except String String)
    (tm : String → Except String String)
    (l : List Observation) (text prio newId : String) (img : Option PyImage)
    (hcall : clientCall vm tm img text = some "") :
    (handleSubmit vm tm l text prio img newId).observations = l ∧
    (handleSubmit vm tm l text prio img newId).inserted = false ∧
    (∀ (vm2 : String → PyImage → Except String String)
       (tm2 : String → Except String String)
       (text2 prio2 newId2 : String) (img2 : Option PyImage),
      (∀ o ∈ l, o.recommendation ≠ "") →
      ∀ o ∈ (handleSubmit vm2 tm2 l text2 prio2 img2 newId2).observations,
        o.recommendation ≠ "") := by
  have hmain : (handleSubmit vm tm l text prio img newId).observations = l ∧
      (handleSubmit vm tm l text prio img newId).inserted = false := by
    rcases handleSubmit_cases vm tm l text prio img newId with
      ⟨_, he⟩ | ⟨_, _, he⟩ | ⟨_, _, he⟩ | ⟨r, _, hc2, hr, _⟩
    · rw [he]
      exact ⟨rfl, rfl⟩
    · rw [he]
      exact ⟨rfl, rfl⟩
    · rw [he]
      exact ⟨rfl, rfl⟩
    · rw [hcall] at hc2
      cases hc2
      exact absurd rfl hr
  refine ⟨hmain.1, hmain.2, ?_⟩
  intro vm2 tm2 text2 prio2 newId2 img2 hinv o ho
  rcases handleSubmit_cases vm2 tm2 l text2 prio2 img2 newId2 with
    ⟨_, he⟩ | ⟨_, _, he⟩ | ⟨_, _, he⟩ | ⟨r, _, _, hr, he⟩
  · rw [he] at ho
    exact hinv o ho
  · rw [he] at ho
    exact hinv o ho
  · rw [he] at ho
    exact hinv o ho
  · rw [he] at ho
    rcases List.mem_cons.mp ho with rfl | hmem
    · exact hr
    · exact hinv o hmem

/-- C9 witness: a concrete empty-string success leaves a concrete store
unchanged. -/
theorem empty_recommendation_witness :
    clientCall vmEmpty tmEmpty none "leak" = some "" ∧
    ((handleSubmit vmEmpty tmEmpty [obsA] "leak" "Medium" none "id-1").observations = [obsA] ∧
     (handleSubmit vmEmpty tmEmpty [obsA] "leak" "Medium" none "id-1").inserted = false ∧
     (∀ (vm2 : String → PyImage → Except String String)
        (tm2 : String → Except String String)
        (text2 prio2 newId2 : String) (img2 : Option PyImage),
       (∀ o ∈ [obsA], o.recommendation ≠ "") →
       ∀ o ∈ (handleSubmit vm2 tm2 [obsA] text2 prio2 img2 newId2).observations,
         o.recommendation ≠ "")) :=
  ⟨rfl,
   empty_recommendation_never_inserted vmEmpty tmEmpty [obsA] "leak" "Medium" "id-1" none rfl⟩

/-- C2 counterexample: a submission with non-blank text whose Recommendation
Client call succeeds, but with the empty string, does not grow the Store at
all — the handler drops falsy recommendations — refuting the claim that
every successful call grows the Store by one. -/
theorem successful_empty_submission_counterexample :
    pyStrip "leak near pump" ≠ "" ∧
    clientCall vmEmpty tmEmpty none "leak near pump" = some "" ∧
    (handleSubmit vmEmpty tmEmpty [] "leak near pump" "Medium" none "id-1").observations.length
      = 0 :=
  ⟨by decide, rfl, rfl⟩

/-- C2 (amended): for every submission with non-blank observation text whose
Recommendation Client call succeeds with a non-empty recommendation string,
the Store grows by exactly one, the new observation sits at index 0, and all
previously stored observations follow in their prior order. -/
theorem successful_submission_inserts_front
    (vm : String → PyImage → Except String String)
    (tm : String → Except String String)
    (l : List Observation) (text prio newId : String) (img : Option PyImage)
    (r : String) (htext : pyStrip text ≠ "")
    (hcall : clientCall vm tm img text = some r) (hr : r ≠ "") :
    (handleSubmit vm tm l text prio img newId).observations =
      (⟨newId, img, text, prio, r⟩ : Observation) :: l ∧
    (handleSubmit vm tm l text prio img newId).observations.length = l.length + 1 ∧
    (handleSubmit vm tm l text prio img newId).observations[0]? =
      some (⟨newId, img, text, prio, r⟩ : Observation) ∧
    ((handleSubmit vm tm l text prio img newId).observations).tail = l := by
  have hobs : (handleSubmit vm tm l text prio img newId).observations =
      (⟨newId, img, text, prio, r⟩ : Observation) :: l := by
    rcases handleSubmit_cases vm tm l text prio img newId with
      ⟨hb, _⟩ | ⟨_, hc2, _⟩ | ⟨_, hc2, _⟩ | ⟨r2, _, hc2, _, he⟩
    · exact absurd hb htext
    · rw [hcall] at hc2
      cases hc2
    · rw [hcall] at hc2
      cases hc2
      exact absurd rfl hr
    · rw [hcall] at hc2
      cases hc2
      rw [he]
  refine ⟨hobs, ?_, ?_, ?_⟩
  · rw [hobs]
    rfl
  · rw [hobs]
    simp
  · rw [hobs]
    rfl

/-- C2 witness: a concrete successful submission against the empty store. -/
theorem successful_submission_witness :
    pyStrip "leak" ≠ "" ∧
    clientCall vmOk tmOk none "leak" = some "Fix it" ∧
    "Fix it" ≠ "" ∧
    ((handleSubmit vmOk tmOk [] "leak" "Medium" none "id-1").observations =
       (⟨"id-1", none, "leak", "Medium", "Fix it"⟩ : Observation) :: [] ∧
     (handleSubmit vmOk tmOk [] "leak" "Medium" none "id-1").observations.length =
       List.length ([] : List Observation) + 1 ∧
     (handleSubmit vmOk tmOk [] "leak" "Medium" none "id-1").observations[0]? =
       some (⟨"id-1", none, "leak", "Medium", "Fix it"⟩ : Observation) ∧
     ((handleSubmit vmOk tmOk [] "leak" "Medium" none "id-1").observations).tail = []) :=
  ⟨by decide, rfl, by decide,
   successful_submission_inserts_front vmOk tmOk [] "leak" "Medium" "id-1" none "Fix it"
     (by decide) rfl (by decide)⟩

/-- C1: the tabular export (modelled from the spec, absent from src) maps an
empty Store to an empty payload — not even a header — and a Store of N
observations to exactly N+1 lines: the header followed by one row per
observation, the row at display index i carrying serial N - i (running from
N down to 1), with image payloads excluded entirely. -/
theorem tabular_export_shape (l : List Observation) (hl : l ≠ []) :
    to_csv [] = "" ∧
    to_csv_lines [] = [] ∧
    (to_csv_lines l).length = l.length + 1 ∧
    (to_csv_lines l)[0]? = some csvHeaderRow ∧
    (∀ (i : Nat) (o : Observation), l[i]? = some o →
      (to_csv_lines l)[i + 1]? = some (csvRow (l.length - i) o) ∧
      (csvRow (l.length - i) o)[0]? = some (toString (l.length - i))) ∧
    to_csv (l.map eraseImage) = to_csv l := by
  have hne : l.isEmpty = false := by
    cases l with
    | nil => exact absurd rfl hl
    | cons o rest => rfl
  have hlines : to_csv_lines l = csvHeaderRow :: csvBodyAux l.length 0 l := by
    unfold to_csv_lines
    rw [hne]
    rfl
  refine ⟨rfl, rfl, ?_, ?_, ?_, ?_⟩
  · rw [hlines]
    simp [csvBodyAux_length]
  · rw [hlines]
    simp
  · intro i o hio
    constructor
    · rw [hlines, List.getElem?_cons_succ, csvBodyAux_getElem l.length l 0 i, hio]
      simp
    · rfl
  · unfold to_csv
    rw [to_csv_lines_eraseImage]

/-- C1 witness: the two-element round-trip store from the spec, serials 2
then 1. -/
theorem tabular_export_witness :
    ([obsB, obsA] : List Observation) ≠ [] ∧
    (to_csv [] = "" ∧
     to_csv_lines [] = [] ∧
     (to_csv_lines [obsB, obsA]).length = [obsB, obsA].length + 1 ∧
     (to_csv_lines [obsB, obsA])[0]? = some csvHeaderRow ∧
     (∀ (i : Nat) (o : Observation), [obsB, obsA][i]? = some o →
       (to_csv_lines [obsB, obsA])[i + 1]? = some (csvRow ([obsB, obsA].length - i) o) ∧
       (csvRow ([obsB, obsA].length - i) o)[0]? = some (toString ([obsB, obsA].length - i))) ∧
     to_csv ([obsB, obsA].map eraseImage) = to_csv [obsB, obsA]) :=
  ⟨by decide, tabular_export_shape [obsB, obsA] (by decide)⟩

/-- C10: the paginated export is not total over arbitrary strings: a Store
holding an observation whose text contains a character above the latin-1
range makes the final latin-1 encode of `to_pdf` raise, failing the whole
export. -/
theorem pdf_not_total_on_unicode :
    latin1Ok obsU.observation_text = false ∧ to_pdf [obsU] = none := by
  constructor
  · decide
  · decide

/-- C8: the paginated export is a pure read of the snapshot — the download
step writes nothing back to session state — and whenever it produces output
at all, that output is the rendering of every drawing operation of the whole
snapshot, one block per observation (all-or-nothing, never partial). -/
theorem pdf_export_pure_all_or_nothing (s : AppState) (b : List Nat)
    (h : to_pdf s.observations = some b) :
    (downloadReportStep s).1 = s ∧
    (downloadReportStep s).2 = some b ∧
    b = ((to_pdf_items s.observations).map itemBytes).flatten ∧
    (pdfBlocks s.observations).length = s.observations.length ∧
    to_pdf_items s.observations = pdfHeaderItems ++ (pdfBlocks s.observations).flatten := by
  have hb : b = ((to_pdf_items s.observations).map itemBytes).flatten := by
    unfold to_pdf at h
    by_cases hc :
        (to_pdf_items s.observations).all (fun it => latin1Ok (itemText it)) = true
    · rw [if_pos hc] at h
      injection h with h2
      exact h2.symm
    · rw [if_neg hc] at h
      cases h
  exact ⟨rfl, h, hb, pdfBlocksAux_length s.observations.length s.observations 0, rfl⟩

/-- C8 witness: a concrete one-element snapshot renders in full. -/
theorem pdf_export_pure_witness :
    to_pdf (AppState.mk [obsA]).observations =
      some (((to_pdf_items [obsA]).map itemBytes).flatten) ∧
    ((downloadReportStep (AppState.mk [obsA])).1 = AppState.mk [obsA] ∧
     (downloadReportStep (AppState.mk [obsA])).2 =
       some (((to_pdf_items [obsA]).map itemBytes).flatten) ∧
     ((to_pdf_items [obsA]).map itemBytes).flatten =
       ((to_pdf_items (AppState.mk [obsA]).observations).map itemBytes).flatten ∧
     (pdfBlocks (AppState.mk [obsA]).observations).length =
       (AppState.mk [obsA]).observations.length ∧
     to_pdf_items (AppState.mk [obsA]).observations =
       pdfHeaderItems ++ (pdfBlocks (AppState.mk [obsA]).observations).flatten) :=
  ⟨rfl,
   pdf_export_pure_all_or_nothing (AppState.mk [obsA])
     (((to_pdf_items [obsA]).map itemBytes).flatten) rfl⟩

/-- C5: for each observation, in snapshot order, the paginated export emits
one block titled with `Observation #` and serial total - index, containing
the priority, the observation text, the recommendation, and — when an image
is present — either its embedded payload or the inline diagnostic when its
re-encode fails; every block ends with the separator row. -/
theorem pdf_block_structure (l : List Observation) (i : Nat) (o : Observation)
    (h : l[i]? = some o) :
    (pdfBlocks l)[i]? = some (obsBlock l.length i o) ∧
    to_pdf_items l = pdfHeaderItems ++ (pdfBlocks l).flatten ∧
    PdfItem.cell 200 10 ("Observation #" ++ toString (l.length - i)) ∈ obsBlock l.length i o ∧
    PdfItem.cell 160 10 o.priority ∈ obsBlock l.length i o ∧
    PdfItem.multiCell 5 o.observation_text ∈ obsBlock l.length i o ∧
    PdfItem.multiCell 5 o.recommendation ∈ obsBlock l.length i o ∧
    (∀ img, o.image = some img →
      (∃ bytes, img.pngBytes = some bytes ∧
        PdfItem.imageEmbed bytes 100 ∈ obsBlock l.length i o) ∨
      (img.pngBytes = none ∧
        PdfItem.cell 0 10 ("(Could not embed image: " ++ img.errMsg ++ ")") ∈
          obsBlock l.length i o)) ∧
    (∃ pre, obsBlock l.length i o =
      pre ++ [PdfItem.cell 0 5 separatorLine, PdfItem.lnBreak 5]) := by
  refine ⟨?_, rfl, ?_, ?_, ?_, ?_, ?_, ?_⟩
  · rw [pdfBlocks, pdfBlocksAux_getElem l.length l 0 i, h]
    simp
  · simp [obsBlock, textItems]
  · simp [obsBlock, textItems]
  · simp [obsBlock, textItems]
  · simp [obsBlock, textItems]
  · intro img himg
    rcases hpng : img.pngBytes with _ | bytes
    · right
      refine ⟨rfl, ?_⟩
      simp [obsBlock, imageItems, himg, hpng]
    · left
      refine ⟨bytes, rfl, ?_⟩
      simp [obsBlock, imageItems, himg, hpng]
  · exact ⟨textItems l.length i o ++ imageItems o.image, rfl⟩

/-- C5 witness: the second block of a concrete two-element snapshot, serial
2 - 1 = 1, with a corrupt image and its diagnostic. -/
theorem pdf_block_structure_witness :
    ([obsB, obsC] : List Observation)[1]? = some obsC ∧
    ((pdfBlocks [obsB, obsC])[1]? = some (obsBlock [obsB, obsC].length 1 obsC) ∧
     to_pdf_items [obsB, obsC] = pdfHeaderItems ++ (pdfBlocks [obsB, obsC]).flatten ∧
     PdfItem.cell 200 10 ("Observation #" ++ toString ([obsB, obsC].length - 1)) ∈
       obsBlock [obsB, obsC].length 1 obsC ∧
     PdfItem.cell 160 10 obsC.priority ∈ obsBlock [obsB, obsC].length 1 obsC ∧
     PdfItem.multiCell 5 obsC.observation_text ∈ obsBlock [obsB, obsC].length 1 obsC ∧
     PdfItem.multiCell 5 obsC.recommendation ∈ obsBlock [obsB, obsC].length 1 obsC ∧
     (∀ img, obsC.image = some img →
       (∃ bytes, img.pngBytes = some bytes ∧
         PdfItem.imageEmbed bytes 100 ∈ obsBlock [obsB, obsC].length 1 obsC) ∨
       (img.pngBytes = none ∧
         PdfItem.cell 0 10 ("(Could not embed image: " ++ img.errMsg ++ ")") ∈
           obsBlock [obsB, obsC].length 1 obsC)) ∧
     (∃ pre, obsBlock [obsB, obsC].length 1 obsC =
       pre ++ [PdfItem.cell 0 5 separatorLine, PdfItem.lnBreak 5])) :=
  ⟨rfl, pdf_block_structure [obsB, obsC] 1 obsC rfl⟩

/-- C4: the paginated export never throws because of a corrupt or unreadable
image: with every text field latin-1 encodable the export succeeds, the
corrupt image is replaced by an inline diagnostic inside its own block, and
every field of every observation still has its block in the output. -/
theorem pdf_corrupt_image_contained (l : List Observation)
    (hl : l.all obsLatin1 = true) :
    to_pdf l = some (((to_pdf_items l).map itemBytes).flatten) ∧
    (pdfBlocks l).length = l.length ∧
    ∀ (i : Nat) (o : Observation), l[i]? = some o →
      (pdfBlocks l)[i]? = some (obsBlock l.length i o) ∧
      PdfItem.cell 160 10 o.priority ∈ obsBlock l.length i o ∧
      PdfItem.multiCell 5 o.observation_text ∈ obsBlock l.length i o ∧
      PdfItem.multiCell 5 o.recommendation ∈ obsBlock l.length i o ∧
      ∀ img, o.image = some img → img.pngBytes = none →
        PdfItem.cell 0 10 ("(Could not embed image: " ++ img.errMsg ++ ")") ∈
          obsBlock l.length i o := by
  refine ⟨to_pdf_eq_some l hl, pdfBlocksAux_length l.length l 0, ?_⟩
  intro i o h
  refine ⟨?_, ?_, ?_, ?_, ?_⟩
  · rw [pdfBlocks, pdfBlocksAux_getElem l.length l 0 i, h]
    simp
  · simp [obsBlock, textItems]
  · simp [obsBlock, textItems]
  · simp [obsBlock, textItems]
  · intro img himg hpng
    simp [obsBlock, imageItems, himg, hpng]

/-- C4 witness: a concrete snapshot with one healthy and one corrupt image
exports in full. -/
theorem pdf_corrupt_image_witness :
    ([obsB, obsC] : List Observation).all obsLatin1 = true ∧
    (to_pdf [obsB, obsC] = some (((to_pdf_items [obsB, obsC]).map itemBytes).flatten) ∧
     (pdfBlocks [obsB, obsC]).length = [obsB, obsC].length ∧
     ∀ (i : Nat) (o : Observation), ([obsB, obsC] : List Observation)[i]? = some o →
       (pdfBlocks [obsB, obsC])[i]? = some (obsBlock [obsB, obsC].length i o) ∧
       PdfItem.cell 160 10 o.priority ∈ obsBlock [obsB, obsC].length i o ∧
       PdfItem.multiCell 5 o.observation_text ∈ obsBlock [obsB, obsC].length i o ∧
       PdfItem.multiCell 5 o.recommendation ∈ obsBlock [obsB, obsC].length i o ∧
       ∀ img, o.image = some img → img.pngBytes = none →
         PdfItem.cell 0 10 ("(Could not embed image: " ++ img.errMsg ++ ")") ∈
           obsBlock [obsB, obsC].length i o) :=
  ⟨by decide, pdf_corrupt_image_contained [obsB, obsC] (by decide)⟩

end ReportApp
